import Mathlib

/-!
Shallow embedding of the Orbi Wealth risk-management engine
(`src/core/risk_manager.py`, class `RiskManager`) and proofs about it.

Modelling conventions:
- Python floats are modelled as exact rationals (`ℚ`) wherever the code's
  arithmetic is field arithmetic; the square root `np.sqrt(252)` and sample
  standard deviations force the metric values into `ℝ`.
- Optional keyword arguments become `Option ℚ`.
- A pandas `DataFrame` with a `value` column (and the derived columns the
  engine writes into it) becomes a record of optional columns plus a row
  count; `pct_change`'s leading `NaN` cell is represented by keeping each
  derived column as the list of its defined (non-NaN) entries, which is the
  set of entries pandas itself uses in `std`/`mean`/`min`/`cumprod`
  (all of which skip NaN).
- Values that the float code can turn into `inf`/`-inf`/`NaN` are modelled
  by the inductive `MetricVal` below.
-/

/-- Configuration of `RiskManager.__init__`: the three risk fractions. -/
structure RiskConfig where
  max_position_size : ℚ
  max_drawdown : ℚ
  stop_loss_percentage : ℚ
deriving DecidableEq, Repr

/-- The documented environment defaults: `0.02`, `0.15`, `0.02`. -/
def defaultConfig : RiskConfig :=
  { max_position_size := 2/100, max_drawdown := 15/100, stop_loss_percentage := 2/100 }

/-- `RiskManager.calculate_position_size` (risk_manager.py lines 66-121),
translated clause by clause: default `risk_per_trade` to
`max_position_size`; with both prices, guard the zero `risk_per_unit`
fallback, else `(portfolio_value * risk_per_trade / risk_per_unit) / entry_price`;
with only an entry price, `portfolio_value * max_position_size / entry_price`;
with no prices, the currency value `portfolio_value * max_position_size`. -/
def calculate_position_size (cfg : RiskConfig) (portfolio_value : ℚ)
    (risk_per_trade entry_price stop_loss_price : Option ℚ) : ℚ :=
  let rpt := risk_per_trade.getD cfg.max_position_size
  let max_risk_amount := portfolio_value * rpt
  match entry_price, stop_loss_price with
  | some entry, some stop =>
      let risk_per_unit := |entry - stop|
      if risk_per_unit = 0 then
        portfolio_value * cfg.max_position_size / entry
      else
        let position_size := max_risk_amount / risk_per_unit
        position_size / entry
  | some entry, none =>
      portfolio_value * cfg.max_position_size / entry
  | none, _ =>
      portfolio_value * cfg.max_position_size

/-- Python's `str.lower()` on the direction label, as a kernel-reducible
map over the string's characters. -/
def strLower (s : String) : String := ⟨s.data.map Char.toLower⟩

/-- `RiskManager.calculate_stop_loss` (risk_manager.py lines 123-169):
`custom_percentage` overrides the configured default, but whenever `atr`
is supplied the ATR branch is taken; `direction.lower() == 'long'`
selects the long side, anything else is treated as short. -/
def calculate_stop_loss (cfg : RiskConfig) (entry_price : ℚ)
    (direction : String) (atr : Option ℚ) (atr_multiplier : ℚ)
    (custom_percentage : Option ℚ) : ℚ :=
  let stop_percentage := custom_percentage.getD cfg.stop_loss_percentage
  match atr with
  | some a =>
      let stop_distance := a * atr_multiplier
      if strLower direction = "long" then entry_price - stop_distance
      else entry_price + stop_distance
  | none =>
      if strLower direction = "long" then entry_price * (1 - stop_percentage)
      else entry_price * (1 + stop_percentage)

/-- `RiskManager.calculate_take_profit` (risk_manager.py lines 171-203):
`risk = |entry - stop|`, `reward = risk * rr`, added for long and
subtracted for short. -/
def calculate_take_profit (entry_price stop_loss_price : ℚ)
    (direction : String) (rr : ℚ) : ℚ :=
  let risk := |entry_price - stop_loss_price|
  let reward := risk * rr
  if strLower direction = "long" then entry_price + reward
  else entry_price - reward

theorem strLower_long : strLower "long" = "long" := rfl

theorem strLower_short : strLower "short" = "short" := rfl

/-- C1: with all four arguments supplied, `entry_price > 0` and
`entry_price ≠ stop_loss_price`, position sizing returns
`(portfolio_value * risk_per_trade / |entry - stop|) / entry`; and the
spec's end-to-end scenario (100000, default risk, 150, 145) yields
`8/3 = 2.666...` units under the default configuration. -/
theorem position_size_formula (cfg : RiskConfig) (pv rpt e s : ℚ)
    (he : 0 < e) (hne : e ≠ s) :
    calculate_position_size cfg pv (some rpt) (some e) (some s)
      = pv * rpt / |e - s| / e ∧
    calculate_position_size defaultConfig 100000 none (some 150) (some 145) = 8/3 := by
  constructor
  · have habs : |e - s| ≠ 0 := by
      simpa [sub_eq_zero] using hne
    simp [calculate_position_size, habs]
  · norm_num [calculate_position_size, defaultConfig]

/-- Witness for C1 at the spec's concrete scenario. -/
theorem position_size_formula_witness :
    calculate_position_size defaultConfig 100000 (some (2/100)) (some 150) (some 145)
      = 100000 * (2/100) / |150 - 145| / 150 :=
  (position_size_formula defaultConfig 100000 (2/100) 150 145 (by norm_num)
    (by norm_num)).1

/-- C6: with `stop_loss_price = entry_price` the zero-risk-per-unit guard
fires and the result is the degenerate fallback
`portfolio_value * max_position_size / entry_price`; no division-by-zero
branch is reached. -/
theorem position_size_degenerate_stop (cfg : RiskConfig) (pv e : ℚ)
    (rpt : Option ℚ) (hpv : 0 < pv) (he : 0 < e) :
    calculate_position_size cfg pv rpt (some e) (some e)
      = pv * cfg.max_position_size / e := by
  simp [calculate_position_size]

/-- Witness for C6 at `pv = 100000`, `e = 150` with the default config. -/
theorem position_size_degenerate_stop_witness :
    calculate_position_size defaultConfig 100000 none (some 150) (some 150)
      = 100000 * defaultConfig.max_position_size / 150 :=
  position_size_degenerate_stop defaultConfig 100000 150 none (by norm_num) (by norm_num)

/-- C7: whenever `atr` is supplied, ATR mode wins regardless of
`custom_percentage`: short gives `entry + atr * mult`, long gives
`entry - atr * mult`, for every custom percentage. -/
theorem stop_loss_atr_precedence (cfg : RiskConfig) (e a m : ℚ) (cp : Option ℚ) :
    calculate_stop_loss cfg e "short" (some a) m cp = e + a * m ∧
    calculate_stop_loss cfg e "long" (some a) m cp = e - a * m := by
  refine ⟨?_, ?_⟩ <;> simp [calculate_stop_loss, strLower_short, strLower_long]

/-- C8: take-profit is symmetric about the entry price when the two calls
have equal stop distance: `tp(e,s,long,r) - e = e - tp(e,s',short,r)`. -/
theorem take_profit_symmetric (e s t r : ℚ) (h : |e - s| = |e - t|) :
    calculate_take_profit e s "long" r - e
      = e - calculate_take_profit e t "short" r := by
  simp [calculate_take_profit, h, strLower_long, strLower_short]

/-- Witness for C8 at `e = 150`, `s = 145`, `t = 155`, `r = 2`. -/
theorem take_profit_symmetric_witness :
    calculate_take_profit 150 145 "long" 2 - 150
      = 150 - calculate_take_profit 150 155 "short" 2 :=
  take_profit_symmetric 150 145 155 2 (by norm_num)

/-- C9: with `entry_price` absent, both `stop_loss_price` and
`risk_per_trade` are ignored and the currency value
`portfolio_value * max_position_size` is returned. -/
theorem position_size_no_entry (cfg : RiskConfig) (pv rpt s : ℚ) :
    calculate_position_size cfg pv (some rpt) none (some s)
      = pv * cfg.max_position_size := by
  simp [calculate_position_size]

/-! ## Portfolio risk metrics

`calculate_risk_metrics` consumes a pandas DataFrame.  Returns are the
defined entries of `value.pct_change()` (its leading NaN is skipped by all
downstream pandas reductions, so each derived column is modelled as the
list of its defined entries).  Sample statistics use pandas' `ddof = 1`.
-/

/-- Mean of a series (`Series.mean`); pandas yields NaN for an empty
series, which callers below guard before using this value. -/
def meanQ (xs : List ℚ) : ℚ := xs.sum / xs.length

/-- Sample variance with `ddof = 1`, the square of `Series.std`; only
meaningful for `2 ≤ length`, which callers below guard. -/
def sampleVarQ (xs : List ℚ) : ℚ :=
  (xs.map (fun x => (x - meanQ xs) ^ 2)).sum / (xs.length - 1 : ℕ)

/-- `Series.pct_change`: `r i = v i / v (i-1) - 1`, keeping only the
defined entries (the leading NaN cell is dropped). -/
def pctChange (vs : List ℚ) : List ℚ :=
  (vs.zip vs.tail).map fun p => p.2 / p.1 - 1

/-- `(1 + returns).cumprod()` over the defined entries. -/
def cumulativeReturns (rs : List ℚ) : List ℚ :=
  ((rs.map (fun r => 1 + r)).scanl (fun a b => a * b) 1).tail

/-- `Series.cummax` over the defined entries. -/
def runningMax : List ℚ → List ℚ
  | [] => []
  | c :: rest => rest.scanl max c

/-- The `drawdown` column: `cumulative_returns / cumulative_max - 1`. -/
def drawdownList (rs : List ℚ) : List ℚ :=
  (cumulativeReturns rs).zipWith (fun c m => c / m - 1) (runningMax (cumulativeReturns rs))

/-- A float-valued metric cell: an exact rational (float arithmetic the
model tracks exactly), a real number (needed once `np.sqrt` enters),
`inf`, `-inf`, or `NaN`. -/
inductive MetricVal where
  | rat (q : ℚ)
  | real (x : ℝ)
  | pinf
  | ninf
  | nan

/-- `Series.std` (`ddof = 1`): NaN on fewer than two observations,
else the square root of the sample variance. -/
noncomputable def sampleStdVal (xs : List ℚ) : MetricVal :=
  if xs.length ≤ 1 then .nan else .real (Real.sqrt (sampleVarQ xs))

/-- `Series.min`: NaN on an empty (all-NaN) column, else the minimum. -/
def minVal : List ℚ → MetricVal
  | [] => .nan
  | x :: rest => .rat (rest.foldl min x)

/-- `metrics['volatility'] = returns.std() * np.sqrt(252)`
(risk_manager.py line 229); NaN propagates through the product. -/
noncomputable def volatilityVal (rs : List ℚ) : MetricVal :=
  match sampleStdVal rs with
  | .real s => .real (s * Real.sqrt 252)
  | v => v

/-- `metrics['sharpe_ratio'] = returns.mean() / returns.std() * np.sqrt(252)`
(risk_manager.py lines 239-240), with numpy's division semantics spelled
out: NaN std gives NaN, zero std gives a signed infinity (or NaN for a
zero mean), else the real quotient. -/
noncomputable def sharpeVal (rs : List ℚ) : MetricVal :=
  if rs.length ≤ 1 then .nan
  else if sampleVarQ rs = 0 then
    if 0 < meanQ rs then .pinf else if meanQ rs < 0 then .ninf else .nan
  else .real ((meanQ rs : ℝ) / Real.sqrt (sampleVarQ rs) * Real.sqrt 252)

/-- `metrics['sortino_ratio']` (risk_manager.py lines 242-249): filter the
negative returns; if none exist the value is `float('inf')`; otherwise
`returns.mean() / (negative_returns.std() * np.sqrt(252)) * np.sqrt(252)`,
again with numpy division semantics spelled out (a single negative return
makes the downside std NaN; equal negative returns make it zero). -/
noncomputable def sortinoVal (rs : List ℚ) : MetricVal :=
  let negs := rs.filter (fun r => decide (r < 0))
  if 0 < negs.length then
    if negs.length ≤ 1 then .nan
    else if sampleVarQ negs = 0 then
      if 0 < meanQ rs then .pinf else if meanQ rs < 0 then .ninf else .nan
    else .real ((meanQ rs : ℝ)
        / (Real.sqrt (sampleVarQ negs) * Real.sqrt 252) * Real.sqrt 252)
  else .pinf

/-- `metrics['calmar_ratio']` (risk_manager.py lines 251-256):
`returns.mean() * 252 / abs(max_drawdown)` when the max drawdown is
nonzero, `float('inf')` when it is zero, and NaN when it is NaN
(Python's `NaN != 0` is true and the division then yields NaN). -/
def calmarVal (rs : List ℚ) : MetricVal :=
  match minVal (drawdownList rs) with
  | .rat md => if md = 0 then .pinf else .rat (meanQ rs * 252 / |md|)
  | _ => .nan

/-- The metrics dict built by the `try` block of
`calculate_risk_metrics`, in insertion order. -/
noncomputable def computeMetrics (rs : List ℚ) : List (String × MetricVal) :=
  [("volatility", volatilityVal rs),
   ("max_drawdown", minVal (drawdownList rs)),
   ("sharpe_ratio", sharpeVal rs),
   ("sortino_ratio", sortinoVal rs),
   ("calmar_ratio", calmarVal rs)]

/-- The caller's pandas DataFrame: a row count plus the columns the
engine reads or writes. `none` means the column is absent. -/
structure DataFrame where
  nrows : ℕ
  value : Option (List ℚ)
  returns : Option (List ℚ)
  cumulative_returns : Option (List ℚ)
  cumulative_max : Option (List ℚ)
  drawdown : Option (List ℚ)
deriving DecidableEq, Repr

/-- The returns series the `try` block works on: the `returns` column if
present, else `value.pct_change()`; `none` when neither column exists
(the `KeyError` the `except` clause absorbs). -/
def DataFrame.getReturns (df : DataFrame) : Option (List ℚ) :=
  match df.returns with
  | some rs => some rs
  | none => df.value.map pctChange

/-- `RiskManager.calculate_risk_metrics` (risk_manager.py lines 205-264),
returned dict: empty for an empty frame, empty when the `try` block
raises (no usable column), else the computed metrics. -/
noncomputable def calculate_risk_metrics (df : DataFrame) : List (String × MetricVal) :=
  if df.nrows = 0 then []
  else
    match df.getReturns with
    | none => []
    | some rs => computeMetrics rs

/-- The same method's effect on the caller's DataFrame: the column
assignments at risk_manager.py lines 222-223 and 232-235 write the
derived series into `portfolio_history` itself.  An empty frame returns
before the `try` block; a `KeyError` fires while evaluating
`portfolio_history['value']`, before any assignment. -/
def calculate_risk_metricsFrame (df : DataFrame) : DataFrame :=
  if df.nrows = 0 then df
  else
    match df.getReturns with
    | none => df
    | some rs =>
        let cr := cumulativeReturns rs
        { df with returns := some rs,
                  cumulative_returns := some cr,
                  cumulative_max := some (runningMax cr),
                  drawdown := some (drawdownList rs) }

/-- Round half to even, the tie rule of Python's fixed-point formatting. -/
def roundHalfEven (q : ℚ) : ℤ :=
  if q - ⌊q⌋ < 1/2 then ⌊q⌋
  else if 1/2 < q - ⌊q⌋ then ⌊q⌋ + 1
  else if ⌊q⌋ % 2 = 0 then ⌊q⌋ else ⌊q⌋ + 1

/-- Python's `f"{x:.2%}"`: multiply by 100, render with two decimals
(ties to even), append `%`. -/
def fmtPct2 (q : ℚ) : String :=
  let n := roundHalfEven (q * 10000)
  let m := n.natAbs
  (if n < 0 then "-" else "")
    ++ toString (m / 100) ++ "."
    ++ (if m % 100 < 10 then "0" else "") ++ toString (m % 100) ++ "%"

/-- `abs(v)` followed by `f"{...:.2%}"` on a metric cell.  In the engine
this is only ever applied to `metrics['max_drawdown']`, which the
pipeline produces as `.rat` or `.nan`; the remaining constructors map to
how Python prints them (`.real` never reaches this formatter and gets a
placeholder, since a binary float's shortest decimal rendering has no
counterpart for an abstract real). -/
def MetricVal.absFmtPct2 : MetricVal → String
  | .rat q => fmtPct2 |q|
  | .pinf => "inf%"
  | .ninf => "inf%"
  | .nan => "nan%"
  | .real _ => "<real>"

/-- Python's `abs(v) > limit` on a metric cell: false for NaN, true for
either infinity. -/
def MetricVal.absGtQ : MetricVal → ℚ → Prop
  | .rat q, l => l < |q|
  | .real x, l => (l : ℝ) < |x|
  | .pinf, _ => True
  | .ninf, _ => True
  | .nan, _ => False

/-- The result dict of `check_portfolio_risk`. -/
structure CheckResult where
  is_acceptable : Bool
  metrics : List (String × MetricVal)
  warnings : List String

/-- The warning appended at risk_manager.py lines 290-291. -/
def mddWarning (v : MetricVal) (limit : ℚ) : String :=
  "Maximum drawdown (" ++ v.absFmtPct2 ++ ") exceeds limit (" ++ fmtPct2 limit ++ ")"

open Classical in
/-- `RiskManager.check_portfolio_risk` (risk_manager.py lines 266-303):
empty metrics give `(False, {})` (modelled as `none`); otherwise the
drawdown check flips `is_acceptable` and appends the warning when
`abs(metrics['max_drawdown'])` strictly exceeds the configured limit. -/
noncomputable def check_portfolio_risk (cfg : RiskConfig) (df : DataFrame) :
    Bool × Option CheckResult :=
  let metrics := calculate_risk_metrics df
  if metrics.isEmpty then (false, none)
  else
    match List.lookup "max_drawdown" metrics with
    | some v =>
        if v.absGtQ cfg.max_drawdown then
          (false, some ⟨false, metrics, [mddWarning v cfg.max_drawdown]⟩)
        else
          (true, some ⟨true, metrics, []⟩)
    | none => (true, some ⟨true, metrics, []⟩)

/-! ## Helper lemmas -/

theorem risk_metrics_eq (df : DataFrame) (rs : List ℚ)
    (h0 : df.nrows ≠ 0) (hr : df.getReturns = some rs) :
    calculate_risk_metrics df = computeMetrics rs := by
  simp [calculate_risk_metrics, h0, hr]

theorem lookup_max_drawdown (rs : List ℚ) :
    List.lookup "max_drawdown" (computeMetrics rs)
      = some (minVal (drawdownList rs)) := by
  simp [computeMetrics, List.lookup]

theorem lookup_sortino (rs : List ℚ) :
    List.lookup "sortino_ratio" (computeMetrics rs) = some (sortinoVal rs) := by
  simp [computeMetrics, List.lookup]

theorem sampleVarQ_nonneg (xs : List ℚ) : 0 ≤ sampleVarQ xs := by
  apply div_nonneg
  · apply List.sum_nonneg
    intro a ha
    obtain ⟨x, _, rfl⟩ := List.mem_map.1 ha
    positivity
  · positivity

theorem sortinoVal_no_neg (rs : List ℚ) (h : ∀ r ∈ rs, ¬ r < 0) :
    sortinoVal rs = .pinf := by
  have hnil : rs.filter (fun r => decide (r < 0)) = [] := by
    simp only [List.filter_eq_nil_iff]
    intro a ha
    simpa using h a ha
  simp [sortinoVal, hnil]

theorem sortinoVal_formula (rs : List ℚ)
    (hlen : 2 ≤ (rs.filter (fun r => decide (r < 0))).length)
    (hvar : sampleVarQ (rs.filter (fun r => decide (r < 0))) ≠ 0) :
    sortinoVal rs
      = .real ((meanQ rs : ℝ)
          / (Real.sqrt (sampleVarQ (rs.filter (fun r => decide (r < 0)))) * Real.sqrt 252)
          * Real.sqrt 252) := by
  have h1 : 0 < (rs.filter (fun r => decide (r < 0))).length := by omega
  have h2 : ¬ (rs.filter (fun r => decide (r < 0))).length ≤ 1 := by omega
  simp [sortinoVal, h1, h2, hvar]

/-! ## Claims about the metrics pipeline -/

/-- C2: `calculate_risk_metrics` is a total function: every input frame
yields a mapping (never a propagated exception); an empty frame yields
the empty mapping, and a malformed frame (neither a `returns` nor a
`value` column, the caught `KeyError`) likewise yields the empty
mapping. -/
theorem risk_metrics_never_raises (df : DataFrame) :
    (∃ m, calculate_risk_metrics df = m) ∧
    (df.nrows = 0 → calculate_risk_metrics df = []) ∧
    (df.returns = none → df.value = none → calculate_risk_metrics df = []) := by
  refine ⟨⟨_, rfl⟩, ?_, ?_⟩
  · intro h; simp [calculate_risk_metrics, h]
  · intro h1 h2
    simp [calculate_risk_metrics, DataFrame.getReturns, h1, h2]

/-- Witness for C2 on the empty, column-less frame. -/
theorem risk_metrics_never_raises_witness :
    calculate_risk_metrics ⟨0, none, none, none, none, none⟩ = [] :=
  (risk_metrics_never_raises ⟨0, none, none, none, none, none⟩).2.1 rfl

/-- C3 counterexample: the claim that the caller's series is left
unchanged is false — on the two-row value series `[100, 110]`,
`calculate_risk_metrics` hands back a frame different from its input
(the derived columns have been written into it). -/
theorem risk_metrics_mutates_input :
    calculate_risk_metricsFrame ⟨2, some [100, 110], none, none, none, none⟩
      ≠ ⟨2, some [100, 110], none, none, none, none⟩ := by decide

/-- C3 amended: `calculate_risk_metrics` does materialise the
intermediate series (returns, cumulative returns, running maximum,
drawdown), but it writes them into the caller's DataFrame as columns —
the input is mutated in place; only the `value` column and row count are
left unchanged. -/
theorem risk_metrics_frame_update (df : DataFrame) (rs : List ℚ)
    (h0 : df.nrows ≠ 0) (hr : df.getReturns = some rs) :
    calculate_risk_metricsFrame df
      = { df with
            returns := some rs,
            cumulative_returns := some (cumulativeReturns rs),
            cumulative_max := some (runningMax (cumulativeReturns rs)),
            drawdown := some (drawdownList rs) } ∧
    (calculate_risk_metricsFrame df).value = df.value ∧
    (calculate_risk_metricsFrame df).nrows = df.nrows := by
  have h : calculate_risk_metricsFrame df
      = { df with
            returns := some rs,
            cumulative_returns := some (cumulativeReturns rs),
            cumulative_max := some (runningMax (cumulativeReturns rs)),
            drawdown := some (drawdownList rs) } := by
    simp [calculate_risk_metricsFrame, h0, hr]
  exact ⟨h, by rw [h], by rw [h]⟩

/-- Witness for the amended C3 on the value series `[100, 110]`. -/
theorem risk_metrics_frame_update_witness :
    calculate_risk_metricsFrame ⟨2, some [100, 110], none, none, none, none⟩
      = { nrows := 2, value := some [100, 110],
          returns := some (pctChange [100, 110]),
          cumulative_returns := some (cumulativeReturns (pctChange [100, 110])),
          cumulative_max := some (runningMax (cumulativeReturns (pctChange [100, 110]))),
          drawdown := some (drawdownList (pctChange [100, 110])) } :=
  (risk_metrics_frame_update ⟨2, some [100, 110], none, none, none, none⟩
    (pctChange [100, 110]) (by decide) rfl).1

/-- C4: when the computed `max_drawdown` is a number `md`,
`check_portfolio_risk` returns `is_acceptable = false` together with the
single warning naming the observed and limit values formatted as
percentages exactly when `|md|` strictly exceeds the configured limit,
and `is_acceptable = true` with no warnings otherwise. -/
theorem portfolio_risk_drawdown_gate (cfg : RiskConfig) (df : DataFrame) (md : ℚ)
    (hmd : List.lookup "max_drawdown" (calculate_risk_metrics df)
      = some (.rat md)) :
    (cfg.max_drawdown < |md| →
      check_portfolio_risk cfg df
        = (false, some ⟨false, calculate_risk_metrics df,
            ["Maximum drawdown (" ++ fmtPct2 |md| ++ ") exceeds limit ("
              ++ fmtPct2 cfg.max_drawdown ++ ")"]⟩)) ∧
    (¬ cfg.max_drawdown < |md| →
      check_portfolio_risk cfg df
        = (true, some ⟨true, calculate_risk_metrics df, []⟩)) := by
  have hne : (calculate_risk_metrics df).isEmpty = false := by
    cases h : calculate_risk_metrics df with
    | nil => rw [h] at hmd; simp [List.lookup] at hmd
    | cons a l => rfl
  constructor <;> intro h <;>
    simp [check_portfolio_risk, hne, hmd, MetricVal.absGtQ, mddWarning,
          MetricVal.absFmtPct2, h]

/-- Witness for C4: the value series `[100, 80, 60]` has max drawdown
`-25%`, which exceeds the default `15%` limit, so the check rejects with
the warning. -/
theorem portfolio_risk_drawdown_gate_witness :
    check_portfolio_risk defaultConfig ⟨3, some [100, 80, 60], none, none, none, none⟩
      = (false, some ⟨false,
          calculate_risk_metrics ⟨3, some [100, 80, 60], none, none, none, none⟩,
          ["Maximum drawdown (" ++ fmtPct2 |(-1/4 : ℚ)| ++ ") exceeds limit ("
            ++ fmtPct2 defaultConfig.max_drawdown ++ ")"]⟩) := by
  have hmd : List.lookup "max_drawdown"
      (calculate_risk_metrics ⟨3, some [100, 80, 60], none, none, none, none⟩)
      = some (.rat (-1/4)) := by
    rw [risk_metrics_eq _ [-1/5, -1/4] (by decide)
      (by norm_num [DataFrame.getReturns, pctChange]), lookup_max_drawdown]
    norm_num [minVal, drawdownList, cumulativeReturns, runningMax, List.scanl, min_def]
  exact (portfolio_risk_drawdown_gate defaultConfig _ (-1/4) hmd).1
    (by norm_num [defaultConfig, abs, max_def])

/-- C5: the `sortino_ratio` metric is `+inf` whenever the return series
has no negative entry (in particular on a zero-variance series), and
otherwise (with at least two distinct negative returns, so the downside
std is a finite nonzero number) equals
`mean(r) / (stdev(negative r) * sqrt 252) * sqrt 252` — the annualization
factor applied once to the denominator and once to the whole quotient. -/
theorem sortino_no_downside_or_formula (df : DataFrame) (rs : List ℚ)
    (h0 : df.nrows ≠ 0) (hr : df.getReturns = some rs) :
    ((∀ r ∈ rs, ¬ r < 0) →
      List.lookup "sortino_ratio" (calculate_risk_metrics df) = some .pinf) ∧
    (∀ negs, negs = rs.filter (fun r => decide (r < 0)) →
      2 ≤ negs.length → sampleVarQ negs ≠ 0 →
      List.lookup "sortino_ratio" (calculate_risk_metrics df)
        = some (.real ((meanQ rs : ℝ)
            / (Real.sqrt (sampleVarQ negs) * Real.sqrt 252) * Real.sqrt 252))) := by
  rw [risk_metrics_eq df rs h0 hr, lookup_sortino]
  constructor
  · intro hpos
    rw [sortinoVal_no_neg rs hpos]
  · intro negs hnegs hlen hvar
    subst hnegs
    rw [sortinoVal_formula rs hlen hvar]

/-- Witness for C5 on the constant (zero-variance) value series
`[100, 100, 100]`: no negative returns, so the sortino metric is `+inf`. -/
theorem sortino_no_downside_or_formula_witness :
    List.lookup "sortino_ratio"
      (calculate_risk_metrics ⟨3, some [100, 100, 100], none, none, none, none⟩)
      = some .pinf :=
  (sortino_no_downside_or_formula ⟨3, some [100, 100, 100], none, none, none, none⟩
    [0, 0] (by decide) (by norm_num [DataFrame.getReturns, pctChange])).1 (by decide)

/-- C10: the two `sqrt 252` factors cancel: whenever the downside std is
a finite nonzero number, the stored sortino metric equals
`mean(r) / stdev(negative r)` with no net annualization. -/
theorem sortino_annualization_cancels (df : DataFrame) (rs negs : List ℚ)
    (h0 : df.nrows ≠ 0) (hr : df.getReturns = some rs)
    (hnegs : negs = rs.filter (fun r => decide (r < 0)))
    (hlen : 2 ≤ negs.length) (hvar : sampleVarQ negs ≠ 0) :
    List.lookup "sortino_ratio" (calculate_risk_metrics df)
      = some (.real ((meanQ rs : ℝ) / Real.sqrt (sampleVarQ negs))) := by
  subst hnegs
  rw [risk_metrics_eq df rs h0 hr, lookup_sortino, sortinoVal_formula rs hlen hvar]
  congr 1
  have hnn := sampleVarQ_nonneg (rs.filter (fun r => decide (r < 0)))
  have hvpos : (0 : ℝ) < (sampleVarQ (rs.filter (fun r => decide (r < 0))) : ℝ) := by
    exact_mod_cast lt_of_le_of_ne hnn (Ne.symm hvar)
  have hs : Real.sqrt (sampleVarQ (rs.filter (fun r => decide (r < 0)))) ≠ 0 :=
    ne_of_gt (Real.sqrt_pos.2 hvpos)
  have hq : Real.sqrt 252 ≠ 0 := by positivity
  congr 1
  field_simp
  ring

/-- Witness for C10 on the value series `[100, 90, 72]` (returns
`-1/10` and `-1/5`, both negative, downside variance `1/200`). -/
theorem sortino_annualization_cancels_witness :
    List.lookup "sortino_ratio"
      (calculate_risk_metrics ⟨3, some [100, 90, 72], none, none, none, none⟩)
      = some (.real ((meanQ [-1/10, -1/5] : ℝ)
          / Real.sqrt (sampleVarQ [-1/10, -1/5]))) :=
  sortino_annualization_cancels ⟨3, some [100, 90, 72], none, none, none, none⟩
    [-1/10, -1/5] [-1/10, -1/5]
    (by decide) (by norm_num [DataFrame.getReturns, pctChange])
    (by norm_num [List.filter]) (by norm_num)
    (by norm_num [sampleVarQ, meanQ])
